import Mathlib

/-!
Verification of the alignment-optimizer logic of the qudi-s2qt repository
(src/qudi/logic/alignment_logic.py).  The Python module drives a multi-axis
motor through a raster scan or a gradient ascent, samples a counter, fits a
multi-dimensional Gaussian with lmfit, and keeps a store of named alignment
positions.  The definitions below are a shallow embedding of that module:
machine floats are modelled by rationals, numpy arrays by lists, Python
dictionaries by association lists, and raised Python exceptions by the
`Except` monad.
-/

namespace Qudi

/-- Python runtime exception kinds raised by the embedded code paths. -/
inductive PyErr where
  | keyError
  | typeError
  | valueError
  | attributeError
  deriving DecidableEq, Repr

/-- Equality of fallible results is decidable when both components are. -/
instance {ε α : Type} [DecidableEq ε] [DecidableEq α] : DecidableEq (Except ε α)
  | Except.error a, Except.error b =>
    if h : a = b then isTrue (congrArg Except.error h)
    else isFalse (fun c => h (Except.error.inj c))
  | Except.error _, Except.ok _ => isFalse (fun c => Except.noConfusion c)
  | Except.ok _, Except.error _ => isFalse (fun c => Except.noConfusion c)
  | Except.ok a, Except.ok b =>
    if h : a = b then isTrue (congrArg Except.ok h)
    else isFalse (fun c => h (Except.ok.inj c))

/-- Python dictionary keys occurring in the embedded code: axis labels
(strings) or integer subscripts. -/
inductive PyKey where
  | str (s : String)
  | int (i : Nat)
  deriving DecidableEq, Repr

/-- Subscript access on a string-keyed Python dict.  A string key is looked
up; an integer subscript never compares equal to any string key, so it
raises KeyError. -/
def pyLookup (d : List (String × ℚ)) : PyKey → Except PyErr ℚ
  | PyKey.str k =>
      match d.lookup k with
      | some v => Except.ok v
      | none => Except.error PyErr.keyError
  | PyKey.int _ => Except.error PyErr.keyError

/-- Run a fallible computation over a list in order, stopping at the first
raised exception (Python evaluation order). -/
def exMapM {α β : Type} (f : α → Except PyErr β) : List α → Except PyErr (List β)
  | [] => Except.ok []
  | x :: xs =>
    match f x with
    | Except.error e => Except.error e
    | Except.ok y =>
      match exMapM f xs with
      | Except.error e => Except.error e
      | Except.ok ys => Except.ok (y :: ys)

/-- numpy min of a 1-D array; numpy raises ValueError on an empty array. -/
def npMinE : List ℚ → Except PyErr ℚ
  | [] => Except.error PyErr.valueError
  | x :: xs => Except.ok (xs.foldl min x)

/-- numpy max of a 1-D array; numpy raises ValueError on an empty array. -/
def npMaxE : List ℚ → Except PyErr ℚ
  | [] => Except.error PyErr.valueError
  | x :: xs => Except.ok (xs.foldl max x)

/-- Accumulator for numpy argmax: `argmaxAux xs i best bv` scans `xs`
starting at index `i` with current best index `best` of value `bv`; a later
element replaces the best only when strictly larger, so the first maximal
element wins, as in numpy. -/
def argmaxAux : List ℚ → Nat → Nat → ℚ → Nat
  | [], _, best, _ => best
  | x :: xs, i, best, bv =>
    if bv < x then argmaxAux xs (i + 1) i x else argmaxAux xs (i + 1) best bv

/-- Elements at even indices 0, 2, 4, ... : the numpy slice [::2]. -/
def sliceEvens : List ℚ → List ℚ
  | [] => []
  | [x] => [x]
  | x :: _ :: rest => x :: sliceEvens rest

/-- Elements at odd indices 1, 3, 5, ... : the numpy slice [1::2]. -/
def sliceOdds (xs : List ℚ) : List ℚ := sliceEvens xs.tail

/-- Elementwise subtraction of two 1-D numpy arrays with numpy shape
broadcasting: equal lengths subtract pointwise, a length-1 operand is
stretched over the other (also over length 0, giving an empty result), and
any other length mismatch raises ValueError. -/
def npSub (a b : List ℚ) : Except PyErr (List ℚ) :=
  if a.length = b.length then Except.ok (List.zipWith (fun x y => x - y) a b)
  else if a.length = 1 then Except.ok (b.map (fun y => a.headD 0 - y))
  else if b.length = 1 then Except.ok (a.map (fun x => x - b.headD 0))
  else Except.error PyErr.valueError

/-- Column j of the 2-D scan position array `self._scan_pos[:, j]`. -/
def matCol (m : List (List ℚ)) (j : Nat) : List ℚ := m.map (fun r => r.getD j 0)

/-- Row-major Cartesian expansion of a list of ranges: the first range
varies slowest and the last range varies fastest.  This is the point order
that the spec asserts for the raster scan ("the standard row-major expansion
where the last axis varies fastest"), written from the spec's words for
comparison with the order the code produces. -/
def cartRowMajor : List (List ℚ) → List (List ℚ)
  | [] => [[]]
  | r :: rest => (r.map (fun x => (cartRowMajor rest).map (fun t => x :: t))).flatten

/-- Point list generated by the raster initialisation (line 273):
`np.array(np.meshgrid(*[range(axis) for axis in selection])).T.reshape(-1, N)`.
With numpy.meshgrid default indexing, for inputs r1..rN the outputs have
dimensions (n2, n1, n3, ..., nN); stacking gives (N, n2, n1, n3, ..., nN),
the transpose reverses the dimensions to (nN, ..., n3, n1, n2, N) and the
row-major reshape therefore enumerates the index tuple
(i_N, ..., i_3, i_1, i_2) lexicographically with i_2 fastest, while each
emitted row holds the coordinates (r1[i_1], ..., rN[i_N]) in selection
order.  Equivalently: enumerate the row-major product of the permuted range
list [rN, ..., r3, r1, r2] and permute each tuple back to coordinate order.
The one-range case has no dimension swap.  (The transpose of a 1-D arange
on line 273 is the identity.) -/
def rasterPoints (rs : List (List ℚ)) : List (List ℚ) :=
  match rs with
  | [] => []
  | [r] => r.map (fun x => [x])
  | r1 :: r2 :: rest =>
      (cartRowMajor (rest.reverse ++ [r1, r2])).map
        (fun t => t.drop rest.length ++ (t.take rest.length).reverse)

/-- Per-axis hardware constraints reported by the positioner
(`get_constraints()[axis]` fields pos_min, pos_max, pos_step). -/
structure AxisConstraint where
  posMin : ℚ
  posMax : ℚ
  posStep : ℚ
  deriving DecidableEq, Repr

/-- Result of the validation in the `axis_range` setter. -/
structure ClampedRange where
  axMin : ℚ
  axMax : ℚ
  axStep : ℚ
  deriving DecidableEq, Repr

/-- The `axis_range` setter validation (lines 114-133) for one axis: each of
the requested min, max and step is replaced by the hardware value when it is
out of bounds or when it is Python-falsy, i.e. equal to 0 (`not ax_min` is
true exactly for 0.0). -/
def axisRangeClamp (c : AxisConstraint) (reqMin reqMax reqStep : ℚ) : ClampedRange :=
  let axMin := if reqMin < c.posMin ∨ reqMin > c.posMax ∨ reqMin = 0 then c.posMin else reqMin
  let axMax := if reqMax > c.posMax ∨ reqMax < c.posMin ∨ reqMax = 0 then c.posMax else reqMax
  let axStep :=
    if reqStep < c.posStep ∨ reqStep > axMax - axMin ∨ reqStep = 0 then c.posStep else reqStep
  ⟨axMin, axMax, axStep⟩

/-- numpy.arange a b st for a nonzero step: n elements a, a+st, a+2*st, ...
where n = max 0 ⌈(b-a)/st⌉.  (numpy raises for st = 0; the setter never
passes 0 because a zero step is replaced by the hardware step.) -/
def npArange (a b st : ℚ) : List ℚ :=
  if st = 0 then []
  else (List.range (Int.toNat ⌈(b - a) / st⌉)).map (fun i => a + (i : ℚ) * st)

/-- The range stored by the `axis_range` setter for one axis (line 135):
`np.arange(ax_min, ax_max, ax_step)` on the clamped values. -/
def axisRangeSet (c : AxisConstraint) (reqMin reqMax reqStep : ℚ) : List ℚ :=
  let r := axisRangeClamp c reqMin reqMax reqStep
  npArange r.axMin r.axMax r.axStep

/-- One lmfit parameter after `Parameters.add`: the bounds actually in
force and the initial value actually stored. -/
structure PInit where
  lo : ℚ
  hi : ℚ
  val : ℚ
  deriving DecidableEq, Repr

/-- lmfit `Parameter._init_bounds`: inverted bounds are swapped, exactly
equal bounds raise ValueError (lmfit uses isclose; exact equality here), and
the initial value is clipped into the bounds (first at the upper, then at
the lower bound). -/
def addParam (lo hi v : ℚ) : Except PyErr PInit :=
  if min lo hi = max lo hi then Except.error PyErr.valueError
  else Except.ok ⟨min lo hi, max lo hi, max (min lo hi) (min (max lo hi) v)⟩

/-- The two lmfit parameters the raster fit adds for one axis j: the center
x_j and the width w_j. -/
structure AxisInit where
  center : PInit
  width : PInit
  deriving DecidableEq, Repr

/-- All initial parameters of the raster Gaussian fit. -/
structure FitInit where
  aVal : ℚ
  bVal : ℚ
  axes : List AxisInit
  deriving DecidableEq, Repr

/-- Parameter setup for axis j in the raster fit (lines 292-294):
x_j with bounds [col.min(), col.max()] and value max_pos[j]; then
w_j with lower bound `(scan_pos[1::2, j] - scan_pos[::2, j]).min()`
(numpy broadcasting; ValueError when the strided slices cannot broadcast or
when the difference array is empty), upper bound
`scan_pos[0, j] - scan_pos[-1, j]`, and value one tenth of that same
first-minus-last difference. -/
def axisInit (scanPos : List (List ℚ)) (maxPos : List ℚ) (j : Nat) : Except PyErr AxisInit :=
  let c := matCol scanPos j
  match npMinE c, npMaxE c with
  | Except.error e, _ => Except.error e
  | Except.ok _, Except.error e => Except.error e
  | Except.ok clo, Except.ok chi =>
    match addParam clo chi (maxPos.getD j 0) with
    | Except.error e => Except.error e
    | Except.ok x =>
      match npSub (sliceOdds c) (sliceEvens c) with
      | Except.error e => Except.error e
      | Except.ok d =>
        match npMinE d with
        | Except.error e => Except.error e
        | Except.ok wlo =>
          match addParam wlo (c.headD 0 - c.getLastD 0) ((c.headD 0 - c.getLastD 0) / 10) with
          | Except.error e => Except.error e
          | Except.ok w => Except.ok ⟨x, w⟩

/-- The fit setup of the completed-scan branch of raster_scan
(lines 286-296) over the accumulated samples: argmax of the scan values
(ValueError on an empty scan), parameters A = scan.max() and B = scan.min(),
the per-axis parameters of `axisInit` in axis order, and finally the
lmfit/scipy `leastsq` call, which raises TypeError when there are fewer
residuals (samples) than the 2 + 2*N varying parameters.  A successful
result means control reaches the iterative solver with these initial
parameters; the numeric minimisation itself is not modelled (theorems
abstract over its output).  `np.nan_to_num` on line 284 is the identity
here since rationals have no NaN. -/
def rasterFitStep (nAxes : Nat) (scanPos : List (List ℚ)) (scan : List ℚ) :
    Except PyErr FitInit :=
  match scan with
  | [] => Except.error PyErr.valueError
  | v :: vs =>
    let maxPos := scanPos.getD (argmaxAux vs 1 0 v) []
    match exMapM (axisInit scanPos maxPos) (List.range nAxes) with
    | Except.error e => Except.error e
    | Except.ok axs =>
      if vs.length + 1 < 2 + 2 * nAxes then Except.error PyErr.typeError
      else Except.ok ⟨vs.foldl max v, vs.foldl min v, axs⟩

/-- Number of `move_abs` commands the completed-scan branch issues before
control leaves raster_scan: the move to the fitted position (line 300)
happens only after `lmfit.minimize` returns, so a raised exception reaches
the caller with no move issued. -/
def rasterFitMoveCount (nAxes : Nat) (scanPos : List (List ℚ)) (scan : List ℚ) : Nat :=
  match rasterFitStep nAxes scanPos scan with
  | Except.error _ => 0
  | Except.ok _ => 1

/-- State of the AlignmentLogic module: configuration, the cached motor
position dict `_motor_positions`, the named alignment store, and the
transient scan state (`point_index`, `_points`, `_scan`, `_scan_pos`).
`points = none` models `_points` never having been assigned (subscripting
it raises AttributeError via the missing attribute).  `connections` counts
how many times `_scanner_signal` is currently connected; the cooperative
scheduler re-invokes the scan slot only while it is nonzero. -/
structure LogicState where
  axisList : List String
  optimizedAxis : List String
  axisRange : List (String × List ℚ)
  motorPositions : List (String × ℚ)
  alignments : List (String × List (String × ℚ))
  pointIndex : Nat
  points : Option (List (List ℚ))
  scanVals : List ℚ
  scanPos : List (List ℚ)
  connections : Nat
  deriving DecidableEq, Repr

/-- External readings consumed by one scheduling tick: the per-axis status
booleans from `get_status(optimized_axis)` (truthy = ready, as the code
interprets them), the counter value, the achieved position re-read from
`get_pos(optimized_axis)` after the move, and the full position dict from
`get_pos(axis_list)`. -/
structure MotorEnv where
  statuses : List Bool
  counterVal : ℚ
  achievedPos : List ℚ
  allPos : List (String × ℚ)
  deriving DecidableEq, Repr

/-- Result of one successfully returning tick: the new module state, the
`move_abs` commands issued during the tick in order, and whether the tick
re-armed itself by emitting `_scanner_signal`. -/
structure TickOut where
  state : LogicState
  moves : List (List (String × ℚ))
  emitted : Bool
  deriving DecidableEq, Repr

/-- Abstraction of the iterative lmfit solver: from the initial parameters
to the fitted center vector in axis order. -/
abbrev Solver := FitInit → List ℚ

/-- The configured range of one axis (`self._axis_range[axis]`); every
known axis is populated at activation. -/
def lookupRange (s : LogicState) (a : String) : List ℚ :=
  (s.axisRange.lookup a).getD []

/-- One invocation of the raster_scan slot (lines 263-304).  Busy motors:
log only, re-emit, no state change.  Otherwise at point_index 0 the point
grid is (re)generated and the sample buffers cleared; while points remain,
scan_point moves to the current point, samples the counter, appends the
achieved position, and advances the cursor; when the points are exhausted
the slot disconnects the signal (Qt raises TypeError when nothing is
connected), runs the fit setup, and on solver return moves to the fitted
position and refreshes the cached positions through the motor_positions
setter (which itself issues a move to the freshly read positions).
A raised exception propagates to the scheduler; the state mutations that
preceded it inside the failing tick are not retained by this model. -/
def rasterTick (solver : Solver) (s : LogicState) (e : MotorEnv) : Except PyErr TickOut :=
  if ¬ (e.statuses.all (fun b => b)) then Except.ok ⟨s, [], true⟩
  else
    let s1 :=
      if s.pointIndex = 0 then
        { s with points := some (rasterPoints (s.optimizedAxis.map (lookupRange s))),
                 scanPos := [], scanVals := [] }
      else s
    match s1.points with
    | none => Except.error PyErr.attributeError
    | some pts =>
      if s1.pointIndex < pts.length then
        let pt := pts.getD s1.pointIndex []
        let s2 := { s1 with
          scanVals := s1.scanVals ++ [e.counterVal]
          scanPos := s1.scanPos ++ [e.achievedPos]
          pointIndex := s1.pointIndex + 1 }
        Except.ok ⟨s2, [s1.optimizedAxis.zip pt], true⟩
      else if s1.connections = 0 then Except.error PyErr.typeError
      else
        match rasterFitStep s1.optimizedAxis.length s1.scanPos s1.scanVals with
        | Except.error err => Except.error err
        | Except.ok fi =>
          let s2 := { s1 with connections := 0, motorPositions := e.allPos }
          Except.ok ⟨s2, [s1.optimizedAxis.zip (solver fi), e.allPos], false⟩

/-- One invocation of the gradient_descent slot (lines 315-343).  Busy
motors: log only, re-emit, no state change.  Otherwise at point_index 0 the
initialisation `[self._motor_positions[i] for i, axis in enumerate(...)]`
subscripts the axis-name-keyed position dict with the integer loop index,
raising KeyError on the first iteration (with an empty selection the
comprehension is empty, scan_point issues a vacuous move and the slope line
`self._scan_pos[k] - self._scan_pos[k-1]` subtracts two Python lists,
raising TypeError).  At a nonzero point_index, scan_point subscripts
`self._points` - in gradient mode a plain Python list - with the tuple
`[point_index, j]`, raising TypeError before any slope is computed (and
with an empty selection the list subtraction raises TypeError instead).
No path reaches the slope threshold comparison of lines 334-341. -/
def gradientTick (s : LogicState) (e : MotorEnv) : Except PyErr TickOut :=
  if ¬ (e.statuses.all (fun b => b)) then Except.ok ⟨s, [], true⟩
  else if s.pointIndex = 0 then
    match exMapM (fun i => pyLookup s.motorPositions (PyKey.int i))
        (List.range s.optimizedAxis.length) with
    | Except.error err => Except.error err
    | Except.ok _ => Except.error PyErr.typeError
  else Except.error PyErr.typeError

/-- n consecutive raster ticks under fixed external readings, threading the
state (the scheduler re-invokes the slot once per emitted signal). -/
def rasterTickN (solver : Solver) (e : MotorEnv) : Nat → LogicState → Except PyErr LogicState
  | 0, s => Except.ok s
  | n + 1, s =>
    match rasterTick solver s e with
    | Except.error err => Except.error err
    | Except.ok o => rasterTickN solver e n o.state

/-- stop_optimization (lines 238-247): while unvisited points remain
(`point_index < self._points.shape[0]`; AttributeError when `_points` was
never assigned) it disconnects the scanner signal (Qt raises TypeError when
nothing is connected) and commands `move_abs` back to the cached
`_motor_positions`; otherwise it does nothing. -/
def stopOptimization (s : LogicState) :
    Except PyErr (LogicState × List (List (String × ℚ))) :=
  match s.points with
  | none => Except.error PyErr.attributeError
  | some pts =>
    if s.pointIndex < pts.length then
      if s.connections = 0 then Except.error PyErr.typeError
      else Except.ok ({ s with connections := 0 }, [s.motorPositions])
    else Except.ok (s, [])

/-- The synchronous part of start_optimization for the raster method
(lines 230-233): reset the point cursor to 0 and connect the scanner signal
once more.  There is no state or running-check of any kind before these
assignments. -/
def startRasterPre (s : LogicState) : LogicState :=
  { s with pointIndex := 0, connections := s.connections + 1 }

/-- start_optimization for the raster method: after resetting the cursor
and connecting, raster_scan is invoked immediately. -/
def startOptimization (solver : Solver) (s : LogicState) (e : MotorEnv) :
    Except PyErr TickOut :=
  rasterTick solver (startRasterPre s) e

/-- add_alignment (lines 192-193): store a copy of the cached
`_motor_positions` under the given name, overwriting any previous entry
(the newest binding shadows older ones under `List.lookup`, matching
Python dict assignment). -/
def addAlignment (s : LogicState) (name : String) : LogicState :=
  { s with alignments := (name, s.motorPositions) :: s.alignments }

/-- retrieve_alignment (lines 195-200): an unknown name only logs an error
and returns (no move); otherwise `move_abs` is issued with the stored
position dict and the cache is set to the achieved position returned by
`move_abs` (the ideal positioner achieves exactly the request). -/
def retrieveAlignment (s : LogicState) (name : String) :
    LogicState × List (List (String × ℚ)) :=
  match s.alignments.lookup name with
  | none => (s, [])
  | some pos => ({ s with motorPositions := pos }, [pos])

/-- A sequence of moves through the motor_positions setter (lines 183-186):
each issues `move_abs` with the request and then refreshes the cache from
`get_pos(axis_list)`; the achieved reading of each move is supplied
alongside the request. -/
def applyMoves : LogicState → List (List (String × ℚ) × List (String × ℚ)) → LogicState
  | s, [] => s
  | s, m :: ms => applyMoves { s with motorPositions := m.2 } ms

/-- A mid-scan raster run over two axes: four grid points, two already
sampled, signal connected once. -/
def demoState : LogicState :=
  { axisList := ["x", "y"], optimizedAxis := ["x", "y"],
    axisRange := [("x", [0, 1]), ("y", [0, 1])],
    motorPositions := [("x", 5), ("y", 7)],
    alignments := [],
    pointIndex := 2, points := some [[0, 0], [0, 1], [1, 0], [1, 1]],
    scanVals := [3, 4], scanPos := [[0, 0], [0, 1]],
    connections := 1 }

/-- Readings with every motor axis ready. -/
def demoIdle : MotorEnv :=
  { statuses := [true, true], counterVal := 9,
    achievedPos := [1, 0], allPos := [("x", 1), ("y", 0)] }

/-- Readings with the second motor axis busy. -/
def demoBusy : MotorEnv :=
  { statuses := [true, false], counterVal := 9,
    achievedPos := [1, 0], allPos := [("x", 1), ("y", 0)] }

/-- A gradient-mode state carrying two recorded samples whose achieved
positions coincide on the only selected axis. -/
def demoGradState : LogicState :=
  { axisList := ["z"], optimizedAxis := ["z"],
    axisRange := [("z", [0, 1, 2])],
    motorPositions := [("z", 0)],
    alignments := [],
    pointIndex := 2, points := none,
    scanVals := [5, 5], scanPos := [[1], [1]],
    connections := 1 }

/-- A freshly started gradient run (cursor 0, empty sample buffers). -/
def demoGradFresh : LogicState :=
  { axisList := ["z"], optimizedAxis := ["z"],
    axisRange := [("z", [0, 1, 2])],
    motorPositions := [("z", 0)],
    alignments := [],
    pointIndex := 0, points := none,
    scanVals := [], scanPos := [],
    connections := 1 }

/-- Readings for the single-axis gradient runs, axis ready. -/
def demoGradIdle : MotorEnv :=
  { statuses := [true], counterVal := 5,
    achievedPos := [1], allPos := [("z", 1)] }

/-- The state `startOptimization` produces from `demoState` under
`demoIdle` readings: cursor reset and advanced to 1, sample buffers
clobbered, a second signal connection added. -/
def demoStarted : LogicState :=
  { axisList := ["x", "y"], optimizedAxis := ["x", "y"],
    axisRange := [("x", [0, 1]), ("y", [0, 1])],
    motorPositions := [("x", 5), ("y", 7)],
    alignments := [],
    pointIndex := 1, points := some [[0, 0], [0, 1], [1, 0], [1, 1]],
    scanVals := [9], scanPos := [[1, 0]],
    connections := 2 }

/-- The number of points of a row-major Cartesian expansion is the product
of the range lengths. -/
theorem cartRowMajor_length (rs : List (List ℚ)) :
    (cartRowMajor rs).length = (rs.map List.length).prod := by
  induction rs with
  | nil => rfl
  | cons r rest ih =>
    simp only [cartRowMajor, List.length_flatten, List.map_map, List.map_cons,
      List.prod_cons]
    have hconst : (List.length ∘ fun x => (cartRowMajor rest).map (fun t => x :: t)) =
        fun _ : ℚ => (cartRowMajor rest).length := by
      funext x
      simp
    rw [hconst, ih]
    simp [List.map_const', mul_comm]

/-- Row-major expansion of a single range lists its singleton tuples. -/
theorem cartRowMajor_singleton (r : List ℚ) :
    cartRowMajor [r] = r.map (fun x => [x]) := by
  induction r with
  | nil => rfl
  | cons x xs ih =>
    simp only [cartRowMajor, List.map_cons, List.flatten_cons] at ih ⊢
    simpa using ih

/-- Successful traversal: the j-th output element comes from the j-th input
through `f`. -/
theorem exMapM_ok_get {α β : Type} (f : α → Except PyErr β) :
    ∀ (xs : List α) (ys : List β), exMapM f xs = Except.ok ys →
      ∀ (j : Nat) (y : β), ys.get? j = some y →
        ∃ x, xs.get? j = some x ∧ f x = Except.ok y := by
  intro xs
  induction xs with
  | nil =>
    intro ys hys j y hy
    simp only [exMapM, Except.ok.injEq] at hys
    subst hys
    simp at hy
  | cons x xs ih =>
    intro ys hys j y hy
    simp only [exMapM] at hys
    cases hfx : f x with
    | error e => rw [hfx] at hys; cases hys
    | ok y0 =>
      rw [hfx] at hys
      cases hrest : exMapM f xs with
      | error e => rw [hrest] at hys; cases hys
      | ok ys0 =>
        rw [hrest] at hys
        simp only [Except.ok.injEq] at hys
        subst hys
        cases j with
        | zero =>
          simp only [List.get?] at hy
          cases hy
          exact ⟨x, rfl, hfx⟩
        | succ j =>
          obtain ⟨x1, hx1, hfx1⟩ := ih ys0 hrest j y hy
          exact ⟨x1, hx1, hfx1⟩

/-- Moves through the motor_positions setter never touch the alignment
store. -/
theorem applyMoves_alignments :
    ∀ (ms : List (List (String × ℚ) × List (String × ℚ))) (s : LogicState),
      (applyMoves s ms).alignments = s.alignments := by
  intro ms
  induction ms with
  | nil => intro s; rfl
  | cons m ms ih => intro s; rw [applyMoves, ih]

/-- C1 counterexample: with three selected axes of two points each, the
point list the raster initialisation generates is not the row-major
Cartesian expansion with the last axis varying fastest - the code's second
point steps the second axis, not the third. -/
theorem raster_points_not_row_major :
    rasterPoints [[0, 1], [0, 1], [0, 1]] ≠ cartRowMajor [[0, 1], [0, 1], [0, 1]] ∧
    (rasterPoints [[0, 1], [0, 1], [0, 1]]).get? 1 = some [0, 1, 0] ∧
    (cartRowMajor [[0, 1], [0, 1], [0, 1]]).get? 1 = some [0, 0, 1] := by
  decide

/-- C1 (amended): for every non-empty selection the generated point list
has length equal to the product of the selected range lengths, and for
selections of at most two axes its order is the row-major Cartesian
expansion with the last axis varying fastest.  (For three or more axes the
meshgrid-transpose-reshape order instead varies the second axis fastest,
then the first, then the remaining axes from the third outward, the last
axis slowest.) -/
theorem raster_point_count_and_low_dim_order (rs : List (List ℚ)) (h : rs ≠ []) :
    (rasterPoints rs).length = (rs.map List.length).prod ∧
    (rs.length ≤ 2 → rasterPoints rs = cartRowMajor rs) := by
  cases rs with
  | nil => exact absurd rfl h
  | cons r1 rest1 =>
    cases rest1 with
    | nil =>
      refine ⟨by simp [rasterPoints], fun _ => ?_⟩
      rw [cartRowMajor_singleton]
      rfl
    | cons r2 rest =>
      constructor
      · show ((cartRowMajor (rest.reverse ++ [r1, r2])).map _).length = _
        rw [List.length_map, cartRowMajor_length, List.map_append, List.map_reverse,
          List.prod_append, List.prod_reverse]
        simp only [List.map_cons, List.map_nil, List.prod_cons, List.prod_nil]
        ring
      · intro hlen
        have hrest : rest = [] := by
          cases rest with
          | nil => rfl
          | cons a b => simp at hlen
        subst hrest
        show (cartRowMajor ([] ++ [r1, r2])).map _ = _
        simp

/-- C1 witness: two axes with two points each give four points in row-major
order. -/
theorem raster_point_count_witness :
    (([[0, 1], [2, 3]] : List (List ℚ)) ≠ []) ∧
    ((rasterPoints [[0, 1], [2, 3]]).length =
        (([[0, 1], [2, 3]] : List (List ℚ)).map List.length).prod ∧
      rasterPoints [[0, 1], [2, 3]] = cartRowMajor [[0, 1], [2, 3]]) :=
  ⟨by decide,
    (raster_point_count_and_low_dim_order [[0, 1], [2, 3]] (by decide)).1,
    (raster_point_count_and_low_dim_order [[0, 1], [2, 3]] (by decide)).2 (by decide)⟩

/-- C2 counterexample: with one selected axis (four free parameters) and
only two samples, the fit setup raises an uncaught TypeError (from the
scipy leastsq underdetermination check) rather than failing with any
handled FitError - no FitError kind exists anywhere in the module - and no
move is issued. -/
theorem raster_fit_crashes_uncaught :
    rasterFitStep 1 [[0], [1]] [1, 2] = Except.error PyErr.typeError ∧
    rasterFitMoveCount 1 [[0], [1]] [1, 2] = 0 := by
  norm_num [rasterFitStep, rasterFitMoveCount, axisInit, matCol, sliceOdds, sliceEvens,
    npSub, npMinE, npMaxE, addParam, exMapM, argmaxAux, List.range_succ]

/-- C2 (amended): whenever fewer samples than the 2 + 2*N free parameters
reach the completed-scan fit, the fit setup raises an uncaught Python
exception (a numpy ValueError or the scipy TypeError) - the run crashes
instead of failing with a handled FitError - and no positioner move is
issued, the move coming only after a successful solver call. -/
theorem raster_fit_underdetermined_raises (nAxes : Nat) (scanPos : List (List ℚ))
    (scan : List ℚ) (h : scan.length < 2 + 2 * nAxes) :
    (∃ e, rasterFitStep nAxes scanPos scan = Except.error e) ∧
    rasterFitMoveCount nAxes scanPos scan = 0 := by
  have herr : ∃ e, rasterFitStep nAxes scanPos scan = Except.error e := by
    cases scan with
    | nil => exact ⟨PyErr.valueError, rfl⟩
    | cons v vs =>
      simp only [rasterFitStep]
      cases hm : exMapM (axisInit scanPos ((scanPos.getD (argmaxAux vs 1 0 v)) []))
          (List.range nAxes) with
      | error e => exact ⟨e, rfl⟩
      | ok axs =>
        have hlt : vs.length + 1 < 2 + 2 * nAxes := by
          simpa using h
        dsimp only
        rw [if_pos hlt]
        exact ⟨PyErr.typeError, rfl⟩
  obtain ⟨e, he⟩ := herr
  exact ⟨⟨e, he⟩, by simp [rasterFitMoveCount, he]⟩

/-- C2 witness: one axis, two samples. -/
theorem raster_fit_underdetermined_raises_witness :
    ([1, 2] : List ℚ).length < 2 + 2 * 1 ∧
    ((∃ e, rasterFitStep 1 [[0], [1]] [1, 2] = Except.error e) ∧
      rasterFitMoveCount 1 [[0], [1]] [1, 2] = 0) :=
  ⟨by decide, raster_fit_underdetermined_raises 1 [[0], [1]] [1, 2] (by decide)⟩

/-- C3: cancelling while unvisited points remain disconnects the scanner
signal (so the cooperative scheduler delivers no further ticks and no
further point is sampled) and issues exactly one move, back to the cached
`_motor_positions`; and every tick of the still-active scan leaves both
that cache and the connection count unchanged, so the cache at cancel time
is the value it had when the run started. -/
theorem cancel_mid_scan_restores (s : LogicState) (pts : List (List ℚ))
    (h1 : s.points = some pts) (h2 : s.pointIndex < pts.length)
    (h3 : s.connections ≠ 0) :
    stopOptimization s = Except.ok ({ s with connections := 0 }, [s.motorPositions]) ∧
    ∀ (solver : Solver) (e : MotorEnv) (out : TickOut),
      rasterTick solver s e = Except.ok out → 0 < s.pointIndex →
        out.state.motorPositions = s.motorPositions ∧
        out.state.connections = s.connections := by
  constructor
  · simp [stopOptimization, h1, h2, h3]
  · intro solver e out hout hpi
    have h0 : ¬ s.pointIndex = 0 := by omega
    cases hbusy : e.statuses.all (fun b => b) with
    | false =>
      simp only [rasterTick, hbusy, Bool.false_eq_true, not_false_eq_true, if_true,
        Except.ok.injEq] at hout
      subst hout
      exact ⟨rfl, rfl⟩
    | true =>
      simp only [rasterTick, hbusy, not_true_eq_false, if_false, h0, if_neg, h1, h2,
        if_true, Except.ok.injEq] at hout
      subst hout
      exact ⟨rfl, rfl⟩

/-- C3 witness: the mid-scan demo state. -/
theorem cancel_mid_scan_restores_witness :
    stopOptimization demoState =
      Except.ok ({ demoState with connections := 0 }, [demoState.motorPositions]) :=
  (cancel_mid_scan_restores demoState [[0, 0], [0, 1], [1, 0], [1, 1]]
    (by decide) (by decide) (by decide)).1

/-- C4: the very first non-busy gradient tick raises KeyError while
building the two initial probe points, because
`self._motor_positions[i]` subscripts the axis-name-keyed position dict
with the integer loop index; the slope threshold logic of lines 334-341 is
never reached. -/
theorem gradient_first_tick_keyerror :
    demoGradFresh.pointIndex = 0 ∧ demoGradFresh.optimizedAxis = ["z"] ∧
    gradientTick demoGradFresh demoGradIdle = Except.error PyErr.keyError := by
  decide

/-- C5 counterexample: at a gradient state carrying two consecutive samples
whose achieved positions coincide on the selected axis, the tick raises
TypeError - the slope computation fails before any per-axis slope (zero or
otherwise) is produced, so no zero-denominator guard takes effect. -/
theorem gradient_coincident_pair_not_guarded :
    demoGradState.scanPos = [[1], [1]] ∧ demoGradState.scanVals = [5, 5] ∧
    gradientTick demoGradState demoGradIdle = Except.error PyErr.typeError := by
  decide

/-- C5 (amended): every non-busy gradient tick raises an exception
(KeyError from the integer subscript of the position dict, or TypeError
from subscripting or subtracting plain Python lists) before any slope value
exists; there is no zero-denominator guard and no tick ever treats an
axis's slope as zero. -/
theorem gradient_nonbusy_tick_raises (s : LogicState) (e : MotorEnv)
    (h : e.statuses.all (fun b => b) = true) :
    ∃ err, gradientTick s e = Except.error err := by
  simp only [gradientTick, h, not_true_eq_false, if_false]
  by_cases h0 : s.pointIndex = 0
  · rw [if_pos h0]
    cases hm : exMapM (fun i => pyLookup s.motorPositions (PyKey.int i))
        (List.range s.optimizedAxis.length) with
    | error err => exact ⟨err, rfl⟩
    | ok l => exact ⟨PyErr.typeError, rfl⟩
  · rw [if_neg h0]
    exact ⟨PyErr.typeError, rfl⟩

/-- C5 witness: a fresh single-axis gradient run with the motor ready. -/
theorem gradient_nonbusy_tick_raises_witness :
    demoGradIdle.statuses.all (fun b => b) = true ∧
    ∃ err, gradientTick demoGradFresh demoGradIdle = Except.error err :=
  ⟨rfl, gradient_nonbusy_tick_raises demoGradFresh demoGradIdle rfl⟩

/-- C6: when any selected axis reports busy (a falsy status), a raster tick
and a gradient tick return the state unchanged, issue no move, and only
re-emit the signal; iterating any number of busy raster ticks leaves the
state identical. -/
theorem busy_tick_noop (solver : Solver) (s : LogicState) (e : MotorEnv)
    (h : e.statuses.all (fun b => b) = false) :
    rasterTick solver s e = Except.ok ⟨s, [], true⟩ ∧
    gradientTick s e = Except.ok ⟨s, [], true⟩ ∧
    ∀ n, rasterTickN solver e n s = Except.ok s := by
  have hr : rasterTick solver s e = Except.ok ⟨s, [], true⟩ := by
    simp [rasterTick, h]
  refine ⟨hr, by simp [gradientTick, h], ?_⟩
  intro n
  induction n with
  | zero => rfl
  | succ n ih =>
    rw [rasterTickN, hr]
    exact ih

/-- C6 witness: the mid-scan demo state with the second axis busy. -/
theorem busy_tick_noop_witness :
    demoBusy.statuses.all (fun b => b) = false ∧
    rasterTick (fun _ => []) demoState demoBusy = Except.ok ⟨demoState, [], true⟩ ∧
    gradientTick demoState demoBusy = Except.ok ⟨demoState, [], true⟩ :=
  ⟨rfl, (busy_tick_noop (fun _ => []) demoState demoBusy rfl).1,
    (busy_tick_noop (fun _ => []) demoState demoBusy rfl).2.1⟩

/-- C7 counterexample: calling start while a run is mid-scan (cursor at 2
of 4, signal connected) does not fail with any error - it returns normally,
resets and re-advances the cursor, clears the accumulated samples, adds a
second signal connection and issues a move to the first grid point,
clobbering the in-progress run. -/
theorem start_mid_run_clobbers :
    demoState.pointIndex = 2 ∧ demoState.connections = 1 ∧
    startOptimization (fun _ => []) demoState demoIdle =
      Except.ok ⟨demoStarted, [[("x", 0), ("y", 0)]], true⟩ ∧
    demoStarted ≠ demoState := by
  decide

/-- C7 (amended): start_optimization performs no running-state check of any
kind: it always resets the point cursor to 0, connects the scanner signal
once more (so the state always differs from the pre-call state), and
immediately invokes the scan slot. -/
theorem start_never_rejected (solver : Solver) (s : LogicState) (e : MotorEnv) :
    startOptimization solver s e = rasterTick solver (startRasterPre s) e ∧
    (startRasterPre s).pointIndex = 0 ∧
    (startRasterPre s).connections = s.connections + 1 ∧
    startRasterPre s ≠ s := by
  refine ⟨rfl, rfl, rfl, fun heq => ?_⟩
  have hc := congrArg LogicState.connections heq
  simp [startRasterPre] at hc

/-- C8: saving the current (cached) position under a name and recalling the
name after any sequence of intervening moves through the motor_positions
setter commands the positioner to exactly the per-axis positions that were
cached at save time, and restores that dict as the cached position. -/
theorem save_recall_restores_saved (s : LogicState) (name : String)
    (ms : List (List (String × ℚ) × List (String × ℚ))) :
    (retrieveAlignment (applyMoves (addAlignment s name) ms) name).2 =
      [s.motorPositions] ∧
    (retrieveAlignment (applyMoves (addAlignment s name) ms) name).1.motorPositions =
      s.motorPositions := by
  have halign : (applyMoves (addAlignment s name) ms).alignments =
      (name, s.motorPositions) :: s.alignments := by
    rw [applyMoves_alignments]
    rfl
  have hlook : (applyMoves (addAlignment s name) ms).alignments.lookup name =
      some s.motorPositions := by
    rw [halign]
    simp [List.lookup]
  constructor <;> simp [retrieveAlignment, hlook]

/-- C9 counterexample: a completed single-axis scan over ascending
positions 0, 1, 2, 3: the initial width parameter value is
(first - last)/10 = -3/10, a negative number, not one tenth of the scanned
span (3/10) bounded below by the minimum spacing (1). -/
theorem raster_width_init_negative :
    rasterFitStep 1 [[0], [1], [2], [3]] [0, 1, 2, 1] =
      Except.ok ⟨2, 0, [⟨⟨0, 3, 2⟩, ⟨-3, 1, -(3 / 10)⟩⟩]⟩ ∧
    (-(3 / 10) : ℚ) < 0 ∧ (-(3 / 10) : ℚ) ≠ 3 / 10 := by
  norm_num [rasterFitStep, axisInit, matCol, sliceOdds, sliceEvens,
    npSub, npMinE, npMaxE, addParam, exMapM, argmaxAux, List.range_succ]

/-- C9 (amended): in every successful fit setup, each axis's initial width
parameter value is one tenth of (first scanned position - last scanned
position) on that axis - not of the span - clipped by lmfit into the
bounds in force (the swapped pair of the minimum odd-even paired difference
and that same first-minus-last difference); it can be zero or negative. -/
theorem raster_width_init_clamped (nAxes : Nat) (scanPos : List (List ℚ))
    (scan : List ℚ) (fi : FitInit)
    (h : rasterFitStep nAxes scanPos scan = Except.ok fi) :
    ∀ (j : Nat) (ax : AxisInit), fi.axes.get? j = some ax →
      ax.width.val = max ax.width.lo (min ax.width.hi
        (((matCol scanPos j).headD 0 - (matCol scanPos j).getLastD 0) / 10)) := by
  intro j ax hax
  cases scan with
  | nil => cases h
  | cons v vs =>
    simp only [rasterFitStep] at h
    cases hm : exMapM (axisInit scanPos ((scanPos.getD (argmaxAux vs 1 0 v)) []))
        (List.range nAxes) with
    | error e => rw [hm] at h; cases h
    | ok axs =>
      rw [hm] at h
      dsimp only at h
      by_cases hlt : vs.length + 1 < 2 + 2 * nAxes
      · rw [if_pos hlt] at h; cases h
      · rw [if_neg hlt] at h
        simp only [Except.ok.injEq] at h
        have haxes : fi.axes = axs := by rw [← h]
        rw [haxes] at hax
        obtain ⟨x, hx, hfx⟩ := exMapM_ok_get _ _ _ hm j ax hax
        have hxj : x = j := by
          have hlen : j < nAxes := by
            have := (List.get?_eq_some.mp hx).1
            simpa using this
          have h9 : (List.range nAxes).get? j = some j := by
            rw [List.get?_eq_getElem?]
            simpa using List.getElem?_range hlen
          rw [hx] at h9
          exact Option.some.inj h9
        subst hxj
        simp only [axisInit] at hfx
        cases hc1 : npMinE (matCol scanPos x) with
        | error e => rw [hc1] at hfx; cases hfx
        | ok clo =>
          rw [hc1] at hfx
          cases hc2 : npMaxE (matCol scanPos x) with
          | error e => rw [hc2] at hfx; cases hfx
          | ok chi =>
            rw [hc2] at hfx
            dsimp only at hfx
            cases hc3 : addParam clo chi
                (((scanPos.getD (argmaxAux vs 1 0 v)) []).getD x 0) with
            | error e => rw [hc3] at hfx; cases hfx
            | ok xc =>
              rw [hc3] at hfx
              dsimp only at hfx
              cases hc4 : npSub (sliceOdds (matCol scanPos x))
                  (sliceEvens (matCol scanPos x)) with
              | error e => rw [hc4] at hfx; cases hfx
              | ok d =>
                rw [hc4] at hfx
                dsimp only at hfx
                cases hc5 : npMinE d with
                | error e => rw [hc5] at hfx; cases hfx
                | ok wlo =>
                  rw [hc5] at hfx
                  dsimp only at hfx
                  cases hc6 : addParam wlo
                      ((matCol scanPos x).headD 0 - (matCol scanPos x).getLastD 0)
                      (((matCol scanPos x).headD 0 - (matCol scanPos x).getLastD 0) / 10) with
                  | error e => rw [hc6] at hfx; cases hfx
                  | ok w =>
                    rw [hc6] at hfx
                    dsimp only at hfx
                    simp only [Except.ok.injEq] at hfx
                    subst hfx
                    simp only [addParam] at hc6
                    by_cases heq : min wlo ((matCol scanPos x).headD 0 -
                        (matCol scanPos x).getLastD 0) = max wlo
                        ((matCol scanPos x).headD 0 - (matCol scanPos x).getLastD 0)
                    · rw [if_pos heq] at hc6; cases hc6
                    · rw [if_neg heq] at hc6
                      simp only [Except.ok.injEq] at hc6
                      subst hc6
                      rfl

/-- C9 witness: the ascending single-axis scan. -/
theorem raster_width_init_clamped_witness :
    (⟨⟨0, 3, 2⟩, ⟨-3, 1, -(3 / 10)⟩⟩ : AxisInit).width.val =
      max (⟨⟨0, 3, 2⟩, ⟨-3, 1, -(3 / 10)⟩⟩ : AxisInit).width.lo
        (min (⟨⟨0, 3, 2⟩, ⟨-3, 1, -(3 / 10)⟩⟩ : AxisInit).width.hi
          (((matCol [[0], [1], [2], [3]] 0).headD 0 -
            (matCol [[0], [1], [2], [3]] 0).getLastD 0) / 10)) :=
  raster_width_init_clamped 1 [[0], [1], [2], [3]] [0, 1, 2, 1]
    ⟨2, 0, [⟨⟨0, 3, 2⟩, ⟨-3, 1, -(3 / 10)⟩⟩]⟩
    (by norm_num [rasterFitStep, axisInit, matCol, sliceOdds, sliceEvens,
      npSub, npMinE, npMaxE, addParam, exMapM, argmaxAux, List.range_succ]) 0
    ⟨⟨0, 3, 2⟩, ⟨-3, 1, -(3 / 10)⟩⟩ rfl

/-- C10: in the axis_range setter, a requested minimum, maximum or step of
exactly 0 is replaced by the hardware limit (or hardware step) through the
Python truthiness test, even when 0 lies strictly inside the hardware
range, so the stored bound differs from the requested 0. -/
theorem axis_range_zero_as_missing (c : AxisConstraint) (rMin rMax rStep : ℚ)
    (h1 : c.posMin < 0) (h2 : 0 < c.posMax) :
    (axisRangeClamp c 0 rMax rStep).axMin = c.posMin ∧
    (axisRangeClamp c rMin 0 rStep).axMax = c.posMax ∧
    (axisRangeClamp c rMin rMax 0).axStep = c.posStep ∧
    (axisRangeClamp c 0 rMax rStep).axMin ≠ 0 ∧
    (axisRangeClamp c rMin 0 rStep).axMax ≠ 0 := by
  have ha : (axisRangeClamp c 0 rMax rStep).axMin = c.posMin := by simp [axisRangeClamp]
  have hb : (axisRangeClamp c rMin 0 rStep).axMax = c.posMax := by simp [axisRangeClamp]
  refine ⟨ha, hb, by simp [axisRangeClamp], ?_, ?_⟩
  · rw [ha]
    exact ne_of_lt h1
  · rw [hb]
    exact ne_of_gt h2

/-- C10 witness: hardware range [-5, 5] with step 1; a requested 0 is
strictly inside the range yet replaced. -/
theorem axis_range_zero_as_missing_witness :
    ((⟨-5, 5, 1⟩ : AxisConstraint).posMin < 0 ∧
      (0 : ℚ) < (⟨-5, 5, 1⟩ : AxisConstraint).posMax) ∧
    ((axisRangeClamp ⟨-5, 5, 1⟩ 0 2 1).axMin = (⟨-5, 5, 1⟩ : AxisConstraint).posMin ∧
      (axisRangeClamp ⟨-5, 5, 1⟩ 1 0 1).axMax = (⟨-5, 5, 1⟩ : AxisConstraint).posMax ∧
      (axisRangeClamp ⟨-5, 5, 1⟩ 1 2 0).axStep = (⟨-5, 5, 1⟩ : AxisConstraint).posStep ∧
      (axisRangeClamp ⟨-5, 5, 1⟩ 0 2 1).axMin ≠ 0 ∧
      (axisRangeClamp ⟨-5, 5, 1⟩ 1 0 1).axMax ≠ 0) :=
  ⟨⟨by decide, by decide⟩,
    axis_range_zero_as_missing ⟨-5, 5, 1⟩ 1 2 1 (by decide) (by decide)⟩

end Qudi
